import Mathlib

/-!
Shallow embedding of the persistence-and-generation core of the Edtech-ai
repository (src/index.tsx and the unnamed revisions src/unnamed/part_000,
part_001, part_002), together with theorems settling the frozen claims
about its natural-language specification.

Machine integers of the source (document counts, byte sizes, timestamps)
are modelled as `Nat`; JavaScript strings as Lean `String` over their
character lists; fallible operations as `Except`.
-/

namespace Edtech

/-- Character-list test used to model JavaScript `String.prototype.startsWith`
on the underlying character sequence: `strStarts needle hay` is true when
`needle` is an initial segment of `hay`. -/
def strStarts : List Char → List Char → Bool
  | [], _ => true
  | _ :: _, [] => false
  | a :: as, b :: bs => a == b && strStarts as bs

/-- Model of JavaScript `String.prototype.includes`: `strIncludes needle hay`
is true when `needle` occurs contiguously inside `hay`. -/
def strIncludes (needle : List Char) : List Char → Bool
  | [] => needle.isEmpty
  | c :: t => strStarts needle (c :: t) || strIncludes needle t

/-- Model of JavaScript `String.prototype.toLowerCase` (character-wise). -/
def lowerStr (s : String) : String := ⟨s.data.map Char.toLower⟩

/-- Message role, source union type `'user' | 'model'` (src/index.tsx:61). -/
inductive Role
  | user
  | model
deriving DecidableEq

/-- Target action of a derived suggestion, source union type
`'quiz' | 'rubric' | 'chat'` (src/index.tsx:70). -/
inductive SuggestionAction
  | quiz
  | rubric
  | chat
deriving DecidableEq

/-- `Suggestion` interface (src/index.tsx:68-72). -/
structure Suggestion where
  label : String
  action : SuggestionAction
  prompt : Option String
deriving DecidableEq

/-- `Message` interface (src/index.tsx:59-66).  The optional `isError?` flag
is modelled as a `Bool` that is `false` when the source leaves it absent;
the optional `suggestions?` list is modelled as `[]` when absent. -/
structure Message where
  id : String
  role : Role
  text : String
  timestamp : Nat
  isError : Bool := false
  suggestions : List Suggestion := []
deriving DecidableEq

/-- Source kind of an uploaded document, source union type
`'pdf' | 'docx' | 'txt'` (src/index.tsx:53). -/
inductive DocKind
  | pdf
  | docx
  | txt
deriving DecidableEq

/-- `DocumentFile` interface (src/index.tsx:49-57); the source field
`type` is named `kind` here because of Lean naming constraints. -/
structure DocumentFile where
  id : String
  user_id : String
  name : String
  kind : DocKind
  content : String
  size : Nat
  created_at : Nat
deriving DecidableEq

/-- `CalendarEvent` rows used by the events API of src/unnamed/part_000;
the source field `type` (event category) is named `category` here. -/
structure CalendarEvent where
  id : String
  title : String
  date : String
  category : String
deriving DecidableEq

/-- Plan tier, source union type `'free' | 'pro' | 'campus'`
(src/index.tsx:47). -/
inductive PlanType
  | free
  | pro
  | campus
deriving DecidableEq

/-- One row of the `PLAN_LIMITS` table (src/index.tsx:31-35). -/
structure PlanLimit where
  maxDocs : Nat
  maxSizeMB : Nat
  label : String
deriving DecidableEq

/-- The static `PLAN_LIMITS` table (src/index.tsx:31-35). -/
def PLAN_LIMITS : PlanType → PlanLimit
  | .free => { maxDocs := 1, maxSizeMB := 5, label := "Free Tier" }
  | .pro => { maxDocs := 10, maxSizeMB := 20, label := "Educator Pro" }
  | .campus => { maxDocs := 999, maxSizeMB := 50, label := "Campus Plan" }

/-- Reason a document upload is denied by a quota check. -/
inductive DenyReason
  | countExceeded
  | sizeExceeded
deriving DecidableEq

/-- Result of a document-upload quota check. -/
inductive QuotaResult
  | allow
  | deny (r : DenyReason)
deriving DecidableEq

/-- Quota check of the upload handler at src/index.tsx:3044-3047:
`if (documents.length >= plan.maxDocs) throw ...; if (file.size >
plan.maxSizeMB * 1024 * 1024) throw ...` — count first, then size. -/
def quotaCheckMain (plan : PlanType) (count fileSize : Nat) : QuotaResult :=
  let p := PLAN_LIMITS plan
  if count ≥ p.maxDocs then .deny .countExceeded
  else if fileSize > p.maxSizeMB * 1024 * 1024 then .deny .sizeExceeded
  else .allow

/-- Quota check of the upload handler at src/index.tsx:672-677 (identical in
src/unnamed/part_001:957-962): only the document count is checked;
there is no file-size check at all in this revision. -/
def quotaCheckIndex (plan : PlanType) (count : Nat) : QuotaResult :=
  if count ≥ (PLAN_LIMITS plan).maxDocs then .deny .countExceeded
  else .allow

/-- Quota check of the upload handler at src/unnamed/part_000:739-741:
`if (file.size > limit.maxSizeMB * 1024 * 1024) ...; if (docs.length >=
limit.maxDocs) ...` — size first, then count. -/
def quotaCheckPart000 (plan : PlanType) (count fileSize : Nat) : QuotaResult :=
  let p := PLAN_LIMITS plan
  if fileSize > p.maxSizeMB * 1024 * 1024 then .deny .sizeExceeded
  else if count ≥ p.maxDocs then .deny .countExceeded
  else .allow

/-- One entry of the `contents` array sent to the completion service
(the `Content` value built in `api.generateAI`, src/index.tsx:203-207). -/
structure Content where
  role : Role
  parts : List String
deriving DecidableEq

/-- The per-message mapping of `api.generateAI` (src/index.tsx:203-206):
`role: msg.role === 'user' ? 'user' : 'model', parts: [{ text: msg.text }]`.
Note that no property of the message other than role and text is consulted:
in particular the `isError` flag is ignored. -/
def toContent (msg : Message) : Content :=
  { role := if msg.role == Role.user then Role.user else Role.model,
    parts := [msg.text] }

/-- The full `contents` payload of `api.generateAI` (src/index.tsx:203-207)
and of `api.generateAIStream` (src/unnamed/part_001:306-310): every history
message mapped by `toContent`, followed by the current user turn. -/
def generateAIContents (prompt : String) (hist : List Message) : List Content :=
  hist.map toContent ++ [{ role := Role.user, parts := [prompt] }]

/-- One chunk-iteration step of the stream loop in
src/unnamed/part_001:914-919: `aiText += chunkText;
setMessages(prev => prev.map(m => m.id === aiMsgId ? { ...m, text: aiText }
: m))`.  The state is the message list paired with the accumulated text. -/
def applyChunk (aiMsgId : String) (st : List Message × String) (c : String) :
    List Message × String :=
  let t := st.2 ++ c
  (st.1.map fun m => if m.id == aiMsgId then { m with text := t } else m, t)

/-- The whole stream loop of src/unnamed/part_001:907-920, starting from the
published message list and the fresh accumulator `aiText = ""`. -/
def streamFold (aiMsgId : String) (init : List Message) (chunks : List String) :
    List Message × String :=
  chunks.foldl (applyChunk aiMsgId) (init, "")

/-- The fixed error text of the catch branch
(src/unnamed/part_001:941, src/index.tsx:656). -/
def errorText : String := "Error connecting to AI. Please check your API key."

/-- The two suggestions attached after a lesson turn
(src/index.tsx:642-645, src/unnamed/part_001:925-928). -/
def lessonSuggestions : List Suggestion :=
  [{ label := "Create Quiz for this", action := .quiz,
     prompt := some "Create a quiz based on this lesson plan." },
   { label := "Generate Rubric", action := .rubric, prompt := none }]

/-- The single suggestion attached after a quiz turn
(src/index.tsx:648, src/unnamed/part_001:931). -/
def quizSuggestions : List Suggestion :=
  [{ label := "Explain Answer Key", action := .chat,
     prompt := some "Explain the answer key in detail." }]

/-- The suggestion rule table of src/index.tsx:640-649 (identical in
src/unnamed/part_001:923-932): declared intent `lesson` or user text
containing `lesson plan` (lower-cased) yields the two lesson suggestions;
else intent `quiz` or text containing `quiz` yields the quiz suggestion;
else no suggestions. -/
def classifySuggestions (optsType : Option String) (text : String) :
    List Suggestion :=
  if (optsType == some "lesson")
      || strIncludes "lesson plan".data (lowerStr text).data then
    lessonSuggestions
  else if (optsType == some "quiz")
      || strIncludes "quiz".data (lowerStr text).data then
    quizSuggestions
  else []

/-- Outcome of one send: the conversation state published to the UI and the
payload of the last `api.saveChat` call (the durable transcript). -/
structure SendOutcome where
  ui : List Message
  saved : List Message
deriving DecidableEq

/-- The streaming send handler of src/unnamed/part_001:881-945, as a pure
function of the stream behaviour.  `chunks` are the chunk texts yielded
before the stream either finishes (`streamThrows = false`) or throws
(`streamThrows = true`).  Before the stream starts, the user turn is
appended and saved (lines 889-891); a placeholder assistant message with
empty text is published (line 909); each chunk sets the placeholder text to
the accumulated text (lines 914-919).  On success the final message (with
suggestions) replaces the placeholder in a fresh list built from the
intermediate messages and is saved (lines 923-937); on failure the catch
branch appends an error-flagged message to the published state (line 941)
and no further save happens. -/
def handleSendMessagePart001 (prior : List Message) (userMsg : Message)
    (aiMsgId : String) (ts : Nat) (optsType : Option String)
    (chunks : List String) (streamThrows : Bool) (errId : String)
    (errTs : Nat) : SendOutcome :=
  let intermediate := prior ++ [userMsg]
  let placeholder : Message :=
    { id := aiMsgId, role := Role.model, text := "", timestamp := ts }
  let st := streamFold aiMsgId (intermediate ++ [placeholder]) chunks
  if streamThrows then
    { ui := st.1 ++ [{ id := errId, role := Role.model, text := errorText,
                       timestamp := errTs, isError := true }],
      saved := intermediate }
  else
    let aiFinal : Message :=
      { id := aiMsgId, role := Role.model, text := st.2, timestamp := ts,
        suggestions := classifySuggestions optsType userMsg.text }
    { ui := intermediate ++ [aiFinal], saved := intermediate ++ [aiFinal] }

/-- State of the document stores visible to a document write: the remote
`documents` table rows and the local-storage document array. -/
structure DocStores where
  remoteDocs : List DocumentFile
  localDocs : List DocumentFile
deriving DecidableEq

/-- `api.saveDoc` of src/index.tsx:141-152: local path appends to the
local-storage array; remote path inserts and `if (error) throw error` —
a remote failure escapes to the caller as an exception and nothing is
written locally. -/
def saveDocIndex (configured remoteFails : Bool) (st : DocStores)
    (doc : DocumentFile) : Except String DocStores :=
  if !configured then .ok { st with localDocs := st.localDocs ++ [doc] }
  else if remoteFails then .error "insert error"
  else .ok { st with remoteDocs := st.remoteDocs ++ [doc] }

/-- `api.saveDoc` of src/unnamed/part_000:162-175: local path appends to the
local-storage array; on the remote path a failure is only logged
(`console.error`) — the write is dropped, with no local duplication and no
exception. -/
def saveDocPart000 (configured remoteFails : Bool) (st : DocStores)
    (doc : DocumentFile) : Except String DocStores :=
  if !configured then .ok { st with localDocs := st.localDocs ++ [doc] }
  else if remoteFails then .ok st
  else .ok { st with remoteDocs := st.remoteDocs ++ [doc] }

/-- State of the event stores visible to an event write. -/
structure EventStores where
  remoteEvents : List CalendarEvent
  localEvents : List CalendarEvent
deriving DecidableEq

/-- `api.saveEvent` of src/unnamed/part_000:231-253: local path appends to
local storage; remote path inserts, and the catch branch appends the event
to local storage instead — the only write operation that duplicates to the
local fallback on remote failure. -/
def saveEventPart000 (configured remoteFails : Bool) (st : EventStores)
    (ev : CalendarEvent) : EventStores :=
  if !configured then { st with localEvents := st.localEvents ++ [ev] }
  else if remoteFails then { st with localEvents := st.localEvents ++ [ev] }
  else { st with remoteEvents := st.remoteEvents ++ [ev] }

/-- The local-storage key for a transcript,
`STORAGE_KEYS.CHAT_PREFIX + userId` (src/index.tsx:21,167). -/
def chatKey (userId : String) : String := "edtech_chat_v5_" ++ userId

/-- The local-storage surface holding transcripts, keyed by string keys.
Serialization (`JSON.stringify` / `JSON.parse`) is an external collaborator,
so the stored value is modelled as the message list itself. -/
def LocalChats : Type := String → Option (List Message)

/-- Local path of `api.saveChat` (src/index.tsx:166-168):
`localStorage.setItem(CHAT_PREFIX + userId, JSON.stringify(messages))`. -/
def saveChatLocal (st : LocalChats) (userId : String) (msgs : List Message) :
    LocalChats :=
  fun k => if k = chatKey userId then some msgs else st k

/-- Local path of `api.getChat` (src/index.tsx:174-176): read the key and
parse, defaulting to `[]` when absent. -/
def getChatLocal (st : LocalChats) (userId : String) : List Message :=
  (st (chatKey userId)).getD []

/-- One row of the remote `chats` table (src/index.tsx:170,178). -/
structure ChatRow where
  user_id : String
  messages : List Message
deriving DecidableEq

/-- Remote path of `api.saveChat` (src/index.tsx:170):
`upsert({ user_id, messages }, { onConflict: 'user_id' })` — replace the
row for this user when present, insert a fresh row otherwise. -/
def upsertChat (rows : List ChatRow) (userId : String)
    (msgs : List Message) : List ChatRow :=
  if rows.any (fun r => r.user_id == userId) then
    rows.map fun r =>
      if r.user_id == userId then { r with messages := msgs } else r
  else rows ++ [{ user_id := userId, messages := msgs }]

/-- Remote path of `api.getChat` (src/index.tsx:178-179):
`select('messages').eq('user_id', userId).single()` then
`data?.messages || []`. -/
def selectChat (rows : List ChatRow) (userId : String) : List Message :=
  match rows.find? (fun r => r.user_id == userId) with
  | some r => r.messages
  | none => []

/-- Model of `content.substring(0, n)` on the character sequence. -/
def substrTo (s : String) (n : Nat) : String := ⟨s.data.take n⟩

/-- The grounding-document segment placed in the assembled context:
`activeDoc.content.substring(0, 30000)` (src/index.tsx:632,
src/unnamed/part_001:900, src/unnamed/part_002:448). -/
def docContextSegment (content : String) : String := substrTo content 30000

/-- Context assembly of src/index.tsx:630-634: base instruction, optional
grounding-document block with the size-capped segment, optional format
directive appended last. -/
def assembleSystem (base : String) (includeDoc : Bool)
    (activeDoc : Option DocumentFile) (fmt : Option String) : String :=
  let s1 :=
    match activeDoc, includeDoc with
    | some d, true =>
        base ++ "\n\n=== CONTEXT: " ++ d.name ++ " ===\n"
          ++ docContextSegment d.content
    | _, _ => base
  match fmt with
  | some f => s1 ++ "\n\nFORMAT: " ++ f
  | none => s1

/-- The source-kind tag chosen by the upload handler at src/index.tsx:685
(identical in src/unnamed/part_001:970 and src/unnamed/part_002:489):
`file.type.includes('pdf') ? 'pdf' : 'docx'`. -/
def uploadDocKind (mimeType : String) : DocKind :=
  if strIncludes "pdf".data mimeType.data then .pdf else .docx

/-- The `DocumentFile` record built by the upload handler
(src/index.tsx:684-687). -/
def uploadedDoc (docId userId fileName mimeType content : String)
    (size ts : Nat) : DocumentFile :=
  { id := docId, user_id := userId, name := fileName,
    kind := uploadDocKind mimeType, content := content, size := size,
    created_at := ts }

/-! ## Sample values used by counterexamples and witnesses -/

/-- A sample error-flagged assistant message, as produced by the catch
branch of the send handlers. -/
def errMsg1 : Message :=
  { id := "e0", role := Role.model, text := errorText, timestamp := 5,
    isError := true }

/-- A sample user message. -/
def demoUserMsg : Message :=
  { id := "u-1", role := Role.user, text := "hi", timestamp := 1 }

/-- A sample placeholder assistant message with empty text. -/
def demoPlaceholder : Message :=
  { id := "p1", role := Role.model, text := "", timestamp := 7 }

/-- A sample uploaded document record. -/
def demoDoc : DocumentFile :=
  { id := "d1", user_id := "u1", name := "a.txt", kind := .txt,
    content := "hello", size := 5, created_at := 0 }

/-! ## Helper lemmas on the stream fold -/

/-- Mapping the per-chunk text update over messages whose ids all differ
from the placeholder id changes nothing. -/
theorem map_update_noop (aiMsgId t : String) (pre : List Message)
    (hpre : ∀ m ∈ pre, m.id ≠ aiMsgId) :
    (pre.map fun m =>
      if m.id == aiMsgId then { m with text := t } else m) = pre := by
  induction pre with
  | nil => rfl
  | cons a as ih =>
    have ha : (a.id == aiMsgId) = false :=
      beq_eq_false_iff_ne.mpr (hpre a (List.mem_cons_self a as))
    have tail := ih fun m hm => hpre m (List.mem_cons_of_mem a hm)
    show (if (a.id == aiMsgId) = true then { a with text := t } else a)
        :: (as.map fun m =>
          if m.id == aiMsgId then { m with text := t } else m)
      = a :: as
    rw [ha, tail]
    rfl

/-- One `applyChunk` step on a state whose last message is the placeholder:
the placeholder text becomes the extended accumulator. -/
theorem applyChunk_step (aiMsgId : String) (pre : List Message) (ph : Message)
    (acc c : String) (hpre : ∀ m ∈ pre, m.id ≠ aiMsgId)
    (hph : ph.id = aiMsgId) :
    applyChunk aiMsgId (pre ++ [ph], acc) c =
      (pre ++ [{ ph with text := acc ++ c }], acc ++ c) := by
  have hb : (ph.id == aiMsgId) = true := beq_iff_eq.mpr hph
  show ((pre ++ [ph]).map fun m =>
      if m.id == aiMsgId then { m with text := acc ++ c } else m,
      acc ++ c)
    = (pre ++ [{ ph with text := acc ++ c }], acc ++ c)
  rw [List.map_append, map_update_noop aiMsgId (acc ++ c) pre hpre]
  simp only [List.map_cons, List.map_nil]
  rw [hb]
  rfl

/-- Folding the chunk updates over a state whose placeholder text equals the
accumulator sets the placeholder text to the accumulated concatenation. -/
theorem foldl_applyChunk_eq (aiMsgId : String) (pre : List Message)
    (ph : Message) (chunks : List String) (acc : String)
    (hpre : ∀ m ∈ pre, m.id ≠ aiMsgId) (hph : ph.id = aiMsgId)
    (htext : ph.text = acc) :
    chunks.foldl (applyChunk aiMsgId) (pre ++ [ph], acc) =
      (pre ++ [{ ph with text := chunks.foldl (· ++ ·) acc }],
       chunks.foldl (· ++ ·) acc) := by
  induction chunks generalizing ph acc with
  | nil =>
    simp only [List.foldl_nil]
    have hp : ({ ph with text := acc } : Message) = ph := by
      cases ph
      simp_all
    rw [hp]
  | cons c cs ih =>
    simp only [List.foldl_cons]
    rw [applyChunk_step aiMsgId pre ph acc c hpre hph]
    exact ih { ph with text := acc ++ c } (acc ++ c) hph rfl

/-- Folding a nonempty chunk list sets the placeholder text to the
accumulated concatenation, whatever text the placeholder held before. -/
theorem foldl_applyChunk_cons (aiMsgId : String) (pre : List Message)
    (ph : Message) (c : String) (cs : List String) (acc : String)
    (hpre : ∀ m ∈ pre, m.id ≠ aiMsgId) (hph : ph.id = aiMsgId) :
    (c :: cs).foldl (applyChunk aiMsgId) (pre ++ [ph], acc) =
      (pre ++ [{ ph with text := (c :: cs).foldl (· ++ ·) acc }],
       (c :: cs).foldl (· ++ ·) acc) := by
  simp only [List.foldl_cons]
  rw [applyChunk_step aiMsgId pre ph acc c hpre hph]
  exact foldl_applyChunk_eq aiMsgId pre { ph with text := acc ++ c } cs
    (acc ++ c) hpre hph rfl

/-! ## Claim theorems -/

/-- C3 counterexample: with plan `free`, one stored document (count limit
1 violated) and a 6 MB file (size limit 5 MB violated), the upload handler
of src/unnamed/part_000:739-741 reports size-exceeded, not count-exceeded,
because it checks the file size first. -/
theorem quota_order_counterexample :
    quotaCheckPart000 .free 1 (6 * 1024 * 1024) = .deny .sizeExceeded ∧
    (PLAN_LIMITS .free).maxDocs ≤ 1 ∧
    (PLAN_LIMITS .free).maxSizeMB * 1024 * 1024 < 6 * 1024 * 1024 := by
  decide

/-- C3 (amended): when both the document-count and the file-size limit are
violated, the handlers in src/index.tsx report count-exceeded (count is
checked first, or is the only check), while the handler in
src/unnamed/part_000 reports size-exceeded (size is checked first). -/
theorem quota_count_before_size (plan : PlanType) (count fileSize : Nat)
    (hc : (PLAN_LIMITS plan).maxDocs ≤ count)
    (hs : (PLAN_LIMITS plan).maxSizeMB * 1024 * 1024 < fileSize) :
    quotaCheckMain plan count fileSize = .deny .countExceeded ∧
    quotaCheckIndex plan count = .deny .countExceeded ∧
    quotaCheckPart000 plan count fileSize = .deny .sizeExceeded := by
  refine ⟨?_, ?_, ?_⟩ <;>
    simp [quotaCheckMain, quotaCheckIndex, quotaCheckPart000, hc, hs]

/-- Witness for `quota_count_before_size` at plan `free`, count 1,
file size 6 MB. -/
theorem quota_count_before_size_witness :
    quotaCheckMain .free 1 (6 * 1024 * 1024) = .deny .countExceeded ∧
    quotaCheckPart000 .free 1 (6 * 1024 * 1024) = .deny .sizeExceeded := by
  have h := quota_count_before_size .free 1 (6 * 1024 * 1024)
    (by decide) (by decide)
  exact ⟨h.1, h.2.2⟩

/-- C4 counterexample: with plan `free` (maxDocs = 1) and current count
n = 1, we have n ≤ limit, yet the upload check denies with count-exceeded
(the source condition is `docs.length >= limit`), contradicting the claim
that every n ≤ limit(P) is allowed. -/
theorem quota_at_limit_counterexample :
    1 ≤ (PLAN_LIMITS .free).maxDocs ∧
    quotaCheckIndex .free 1 = .deny .countExceeded ∧
    quotaCheckMain .free 1 0 = .deny .countExceeded := by
  decide

/-- C4 (amended): for every plan tier P, a current count n < limit(P)
passes the count check (Allow in the count-only handler of
src/index.tsx:672-677), and every n ≥ limit(P) — so in particular
n = limit(P) and n = limit(P)+1 — is denied with count-exceeded, regardless
of file size. -/
theorem quota_threshold (plan : PlanType) (n fileSize : Nat) :
    (n < (PLAN_LIMITS plan).maxDocs → quotaCheckIndex plan n = .allow) ∧
    ((PLAN_LIMITS plan).maxDocs ≤ n →
      quotaCheckIndex plan n = .deny .countExceeded ∧
      quotaCheckMain plan n fileSize = .deny .countExceeded) := by
  constructor
  · intro h
    simp [quotaCheckIndex, Nat.not_le.mpr h]
  · intro h
    exact ⟨by simp [quotaCheckIndex, h], by simp [quotaCheckMain, h]⟩

/-- Witness for `quota_threshold` at plan `free` with counts 0 and 2. -/
theorem quota_threshold_witness :
    quotaCheckIndex .free 0 = .allow ∧
    quotaCheckMain .free 2 (10 * 1024 * 1024) = .deny .countExceeded := by
  exact ⟨(quota_threshold .free 0 0).1 (by decide),
    ((quota_threshold .free 2 (10 * 1024 * 1024)).2 (by decide)).2⟩

/-- C5 counterexample: on remote failure `api.saveDoc` of
src/index.tsx:141-152 throws (`if (error) throw error`) — the caller does
observe an exception — and `api.saveDoc` of src/unnamed/part_000:162-175
merely logs and drops the write, leaving both stores unchanged — the write
is silently lost, with no local duplication. -/
theorem write_fallback_counterexample :
    saveDocIndex true true { remoteDocs := [], localDocs := [] } demoDoc =
      .error "insert error" ∧
    saveDocPart000 true true { remoteDocs := [], localDocs := [] } demoDoc =
      .ok { remoteDocs := [], localDocs := [] } := by
  exact ⟨rfl, rfl⟩

/-- C5 (amended): only the calendar-event write (`api.saveEvent`,
src/unnamed/part_000:231-253) duplicates to the local fallback on remote
failure — the event always lands in the remote or the local store and no
exception escapes; the document write throws on remote failure in
src/index.tsx and is logged-and-dropped without local duplication in
src/unnamed/part_000. -/
theorem event_write_fallback (fails : Bool) (est : EventStores)
    (ev : CalendarEvent) (dst : DocStores) (d : DocumentFile) :
    (ev ∈ (saveEventPart000 true fails est ev).remoteEvents ∨
      ev ∈ (saveEventPart000 true fails est ev).localEvents) ∧
    saveDocPart000 true true dst d = .ok dst ∧
    saveDocIndex true true dst d = .error "insert error" := by
  refine ⟨?_, rfl, rfl⟩
  cases fails <;> simp [saveEventPart000]

/-- C7: the grounding-document segment included in the assembled context is
`content.substring(0, 30000)` — exactly the first 30,000 characters when the
content is longer than 30,000 characters, and the content unmodified when it
is at most 30,000 characters long. -/
theorem context_truncation (content : String) :
    (30000 < content.data.length →
      (docContextSegment content).data.length = 30000 ∧
      (docContextSegment content).data = content.data.take 30000) ∧
    (content.data.length ≤ 30000 → docContextSegment content = content) := by
  constructor
  · intro h
    refine ⟨?_, rfl⟩
    show (content.data.take 30000).length = 30000
    rw [List.length_take]
    exact Nat.min_eq_left (Nat.le_of_lt h)
  · intro h
    cases content with
    | mk l =>
      show String.mk (l.take 30000) = String.mk l
      exact congrArg String.mk (List.take_of_length_le h)

/-- Witness for `context_truncation` on a 30,001-character document and on
a 3-character document. -/
theorem context_truncation_witness :
    (docContextSegment ⟨List.replicate 30001 (Char.ofNat 97)⟩).data.length
      = 30000 ∧
    docContextSegment "abc" = "abc" := by
  constructor
  · refine ((context_truncation ⟨List.replicate 30001 (Char.ofNat 97)⟩).1
      ?_).1
    show (30000 : Nat) < (List.replicate 30001 (Char.ofNat 97)).length
    rw [List.length_replicate]
    decide
  · exact (context_truncation "abc").2 (by decide)

/-- C10: the upload handler of src/index.tsx:679-693 (and of
src/unnamed/part_001:964-978 and src/unnamed/part_002:481-498) tags every
accepted file whose MIME type does not include `pdf` with source kind
`docx` — in particular the stored record is never tagged `txt`, whatever
the MIME type. -/
theorem upload_kind_docx (docId userId fileName mimeType content : String)
    (size ts : Nat) (h : strIncludes "pdf".data mimeType.data = false) :
    (uploadedDoc docId userId fileName mimeType content size ts).kind
      = DocKind.docx ∧
    ∀ mt : String,
      (uploadedDoc docId userId fileName mt content size ts).kind
        ≠ DocKind.txt := by
  constructor
  · simp [uploadedDoc, uploadDocKind, h]
  · intro mt
    simp only [uploadedDoc, uploadDocKind]
    split <;> simp

/-- Witness for `upload_kind_docx`: a plain-text upload with MIME type
`text/plain` is recorded with source kind `docx`, not `txt`. -/
theorem upload_kind_docx_witness :
    (uploadedDoc "d1" "u1" "notes.txt" "text/plain" "hi" 2 0).kind
      = DocKind.docx := by
  exact (upload_kind_docx "d1" "u1" "notes.txt" "text/plain" "hi" 2 0
    (by decide)).1

/-- C1 counterexample: the `contents` payload built by `api.generateAI`
maps every history message, with no filter on the `isError` flag — a
history holding one error-flagged assistant message produces a payload that
contains that message's entry and differs from the payload built from the
error-free history. -/
theorem history_error_counterexample :
    errMsg1.isError = true ∧
    toContent errMsg1 ∈ generateAIContents "hi" [errMsg1] ∧
    generateAIContents "hi" [errMsg1] ≠
      generateAIContents "hi"
        (List.filter (fun m => !m.isError) [errMsg1]) := by
  refine ⟨rfl, ?_, ?_⟩
  · simp [generateAIContents]
  · intro h
    have hl := congrArg List.length h
    simp [generateAIContents, errMsg1] at hl

/-- C1 (amended): the history payload passed to the completion service
contains one entry per history message, in order — error-flagged assistant
messages included, their text replayed with role `model` — followed by the
current user turn; nothing is excluded. -/
theorem history_includes_all_messages (prompt : String)
    (hist : List Message) :
    (generateAIContents prompt hist).map Content.parts =
      hist.map (fun m => [m.text]) ++ [[prompt]] ∧
    (generateAIContents prompt hist).length = hist.length + 1 := by
  constructor
  · simp [generateAIContents, List.map_map, Function.comp, toContent]
  · simp [generateAIContents]

/-- C2 counterexample: a stream that yields `"Hello"` and `" world"` and
then throws leaves the finalized conversation state with TWO assistant
messages — the partial placeholder holding `"Hello world"` and the appended
error message — while the durable transcript (last save) holds only the
user turn and no error message at all. -/
theorem stream_error_counterexample :
    (((handleSendMessagePart001 [] demoUserMsg "a1" 2 none
        ["Hello", " world"] true "e1" 3).ui.filter
          fun m => m.role == Role.model).length = 2) ∧
    ({ id := "a1", role := Role.model, text := "Hello world",
        timestamp := 2 } : Message) ∈
      (handleSendMessagePart001 [] demoUserMsg "a1" 2 none
        ["Hello", " world"] true "e1" 3).ui ∧
    (handleSendMessagePart001 [] demoUserMsg "a1" 2 none
        ["Hello", " world"] true "e1" 3).saved = [demoUserMsg] := by
  refine ⟨?_, ?_, rfl⟩ <;> decide

/-- C2 (amended): when the stream throws after yielding `chunks`, the
finalized conversation state contains the user's turn, the partial
placeholder assistant message holding the concatenation of the received
chunks, and one appended assistant message with `isError = true` and the
fixed error text — the partial message is NOT removed; and the durable
transcript (last save) holds only the prior messages and the user's turn. -/
theorem stream_error_keeps_partial (prior : List Message) (userMsg : Message)
    (aiMsgId : String) (ts : Nat) (optsType : Option String)
    (chunks : List String) (errId : String) (errTs : Nat)
    (h : ∀ m ∈ prior ++ [userMsg], m.id ≠ aiMsgId) :
    handleSendMessagePart001 prior userMsg aiMsgId ts optsType chunks
        true errId errTs =
      { ui := prior ++ [userMsg,
          { id := aiMsgId, role := Role.model,
            text := chunks.foldl (· ++ ·) "", timestamp := ts },
          { id := errId, role := Role.model, text := errorText,
            timestamp := errTs, isError := true }],
        saved := prior ++ [userMsg] } := by
  have hfold := foldl_applyChunk_eq aiMsgId (prior ++ [userMsg])
    { id := aiMsgId, role := Role.model, text := "", timestamp := ts }
    chunks "" h rfl rfl
  simp only [handleSendMessagePart001, streamFold]
  rw [if_pos trivial, hfold]
  simp [List.append_assoc]

/-- Witness for `stream_error_keeps_partial` on a two-chunk stream. -/
theorem stream_error_keeps_partial_witness :
    handleSendMessagePart001 [] demoUserMsg "a1" 2 none ["a", "b"]
        true "e1" 3 =
      { ui := [demoUserMsg,
          { id := "a1", role := Role.model, text := "ab", timestamp := 2 },
          { id := "e1", role := Role.model, text := errorText,
            timestamp := 3, isError := true }],
        saved := [demoUserMsg] } := by
  have h := stream_error_keeps_partial [] demoUserMsg "a1" 2 none
    ["a", "b"] "e1" 3 (by
      intro m hm
      simp at hm
      subst hm
      decide)
  simpa using h

/-- C6: replaying the same ordered chunk sequence a second time, against
the state produced by the first application, yields exactly the same state
and final text — each per-chunk update sets the placeholder text to the full
accumulated text rather than appending to already-applied text, so the
second pass rewrites the same value. -/
theorem chunk_replay_same (pre : List Message) (ph : Message)
    (chunks : List String) (hpre : ∀ m ∈ pre, m.id ≠ ph.id) :
    streamFold ph.id (streamFold ph.id (pre ++ [ph]) chunks).1 chunks =
      streamFold ph.id (pre ++ [ph]) chunks := by
  cases chunks with
  | nil => rfl
  | cons c cs =>
    unfold streamFold
    rw [foldl_applyChunk_cons ph.id pre ph c cs "" hpre rfl]
    rw [foldl_applyChunk_cons ph.id pre
      { ph with text := (c :: cs).foldl (· ++ ·) "" } c cs "" hpre rfl]

/-- Witness for `chunk_replay_same` on a fresh empty placeholder and the
chunk sequence `["Hello", " world"]`. -/
theorem chunk_replay_same_witness :
    streamFold "p1"
        (streamFold "p1" ([demoUserMsg] ++ [demoPlaceholder])
          ["Hello", " world"]).1 ["Hello", " world"] =
      streamFold "p1" ([demoUserMsg] ++ [demoPlaceholder])
        ["Hello", " world"] := by
  exact chunk_replay_same [demoUserMsg] demoPlaceholder
    ["Hello", " world"] (by
      intro m hm
      simp at hm
      subst hm
      decide)

/-- Finding in a list that ends with the only matching element returns
that element. -/
theorem find_append_none {α : Type} (p : α → Bool) (l : List α) (a : α)
    (hl : ∀ x ∈ l, p x = false) (ha : p a = true) :
    (l ++ [a]).find? p = some a := by
  induction l with
  | nil => simp [List.find?, ha]
  | cons b bs ih =>
    have hb := hl b (List.mem_cons_self b bs)
    simp [List.find?, hb,
      ih fun x hx => hl x (List.mem_cons_of_mem b hx)]

/-- Finding after the per-row update of the upsert path returns a row whose
messages are the saved list, whenever some row matched the user. -/
theorem find_upd (u : String) (M : List Message) (rows : List ChatRow)
    (hany : rows.any (fun rr => rr.user_id == u) = true) :
    ∃ rr, ((rows.map fun r =>
        if r.user_id == u then { r with messages := M } else r).find?
          fun r => r.user_id == u) = some rr ∧ rr.messages = M := by
  induction rows with
  | nil => simp at hany
  | cons r rs ih =>
    cases hr : (r.user_id == u) with
    | true =>
      refine ⟨{ r with messages := M }, ?_, rfl⟩
      simp [List.find?, hr]
    | false =>
      have hany2 : rs.any (fun rr => rr.user_id == u) = true := by
        simpa [List.any_cons, hr] using hany
      obtain ⟨rr, hfind, hmsg⟩ := ih hany2
      refine ⟨rr, ?_, hmsg⟩
      simpa [List.find?, hr] using hfind

/-- Round-trip of the remote transcript path: upserting the row for a user
and selecting that user's messages returns exactly the saved list. -/
theorem selectChat_upsertChat (rows : List ChatRow) (u : String)
    (M : List Message) : selectChat (upsertChat rows u M) u = M := by
  by_cases hany : rows.any (fun rr => rr.user_id == u) = true
  · obtain ⟨rr, hfind, hmsg⟩ := find_upd u M rows hany
    unfold upsertChat selectChat
    rw [if_pos hany, hfind]
    exact hmsg
  · have hall : ∀ x ∈ rows, (x.user_id == u) = false := by
      intro x hx
      cases hcond : (x.user_id == u) with
      | false => rfl
      | true => exact absurd (List.any_eq_true.mpr ⟨x, hx, hcond⟩) hany
    unfold upsertChat selectChat
    rw [if_neg hany,
      find_append_none _ rows { user_id := u, messages := M } hall
        (by simp)]

/-- C8: saving the transcript M for an owner and reading it back yields
exactly M — order-preserving, content-preserving, no message reordered,
merged, or dropped — under the local backend (`localStorage` keyed by
`CHAT_PREFIX + userId`) and under the remote backend (upsert/select on the
`chats` table keyed by `user_id`). -/
theorem transcript_roundtrip (st : LocalChats) (rows : List ChatRow)
    (u : String) (M : List Message) :
    getChatLocal (saveChatLocal st u M) u = M ∧
    selectChat (upsertChat rows u M) u = M := by
  refine ⟨?_, selectChat_upsertChat rows u M⟩
  simp [getChatLocal, saveChatLocal]

/-- C9: a turn with declared intent `lesson`, or whose user text contains
`lesson plan` (lower-cased), yields exactly two suggestions with target
actions `quiz` and `rubric`; a turn matching no rule of the table — intent
neither `lesson` nor `quiz`, text containing neither `lesson plan` nor
`quiz` — yields no suggestions. -/
theorem lesson_suggestions_exact (optsType : Option String) (text : String) :
    ((optsType = some "lesson" ∨
        strIncludes "lesson plan".data (lowerStr text).data = true) →
      (classifySuggestions optsType text).map Suggestion.action =
        [SuggestionAction.quiz, SuggestionAction.rubric] ∧
      (classifySuggestions optsType text).length = 2) ∧
    (optsType ≠ some "lesson" → optsType ≠ some "quiz" →
      strIncludes "lesson plan".data (lowerStr text).data = false →
      strIncludes "quiz".data (lowerStr text).data = false →
      classifySuggestions optsType text = []) := by
  constructor
  · intro h
    have hcond : ((optsType == some "lesson")
        || strIncludes "lesson plan".data (lowerStr text).data) = true := by
      rcases h with h | h
      · simp [h]
      · simp [h]
    simp [classifySuggestions, hcond, lessonSuggestions]
  · intro h1 h2 h3 h4
    have b1 : (optsType == some "lesson") = false :=
      beq_eq_false_iff_ne.mpr h1
    have b2 : (optsType == some "quiz") = false :=
      beq_eq_false_iff_ne.mpr h2
    simp [classifySuggestions, b1, b2, h3, h4]

/-- Witness for `lesson_suggestions_exact`: a lesson-intent turn carries
the quiz and rubric suggestions; a plain chat turn carries none. -/
theorem lesson_suggestions_exact_witness :
    (classifySuggestions (some "lesson") "make me a plan").map
        Suggestion.action =
      [SuggestionAction.quiz, SuggestionAction.rubric] ∧
    classifySuggestions none "hello there" = [] := by
  refine ⟨((lesson_suggestions_exact (some "lesson")
    "make me a plan").1 (Or.inl rfl)).1, ?_⟩
  exact (lesson_suggestions_exact none "hello there").2
    (by simp) (by simp) (by decide) (by decide)

end Edtech
